import Mathlib

/-!
Verification of the request/authentication/retry core of the box-node-sdk
repository. The definitions below are shallow embeddings of the TypeScript
and JavaScript sources:

* `src/src/api-request.ts` - the Request Executor (`APIRequest`): response
  classification, sensitive-header redaction, the buffered retry loop and
  the streaming execution path;
* the Token Manager source (`token-manager`): grant-response validation and
  parsing, token validity, JWT-grant retry classification and delay choice;
* the configuration object source (`config`): defaults merging, freezing,
  and `Config.extend`;
* the API session single-flight refresh behaviour (modelled from the spec,
  because only declaration files for the sessions are present).

JavaScript numbers are modelled as `Int`/`Nat` (all quantities involved are
integers in the code paths under study), absent object fields as `Option`,
and the relevant JavaScript truthiness tests are spelled out explicitly.
-/

namespace BoxSDK

/-! ## Request Executor: response classification (api-request.ts) -/

/-- Membership in `retryableStatusCodes`, the map built at module load from
`httpStatusCodes.REQUEST_TIMEOUT` (408) and `httpStatusCodes.TOO_MANY_REQUESTS`
(429) in api-request.ts. -/
def retryableStatusCodes (statusCode : Nat) : Bool :=
  statusCode == 408 || statusCode == 429

/-- Embedding of `isTemporaryError` from api-request.ts: a response is a
temporary/transient error if its status is 5xx other than 507
(`httpStatusCodes.INSUFFICIENT_STORAGE`), or is in `retryableStatusCodes`. -/
def isTemporaryError (statusCode : Nat) : Bool :=
  if statusCode != 507 && 500 ≤ statusCode && statusCode ≤ 599 then
    true
  else if retryableStatusCodes statusCode then
    true
  else
    false

/-- Embedding of `isClientErrorResponse` from api-request.ts (the status code
is assumed to be a number, as the original asserts at runtime). -/
def isClientErrorResponse (statusCode : Nat) : Bool :=
  400 ≤ statusCode && statusCode < 500

/-! ## Token Manager: access-token validity -/

/-- The shape of a `tokenInfo` object as inspected by
`TokenManager.isAccessTokenValid`: either timestamp field may be absent. -/
structure TokenInfoJS where
  acquiredAtMS : Option Int
  accessTokenTTLMS : Option Int
  deriving DecidableEq, Repr

/-- Embedding of `TokenManager.isAccessTokenValid`: returns false when either
timestamp field is `undefined`; otherwise compares
`acquiredAtMS + accessTokenTTLMS - bufferMS` against `Date.now()` (passed here
as `now`). The original defaults the buffer with `bufferMS || 0`, which maps
an omitted buffer to 0 (and leaves every other integer unchanged, since
`0 || 0` is also 0). -/
def isAccessTokenValid (tokenInfo : TokenInfoJS) (bufferMS : Option Int)
    (now : Int) : Bool :=
  match tokenInfo.acquiredAtMS, tokenInfo.accessTokenTTLMS with
  | some acquiredAt, some ttl =>
    let buffer := bufferMS.getD 0
    decide (acquiredAt + ttl - buffer > now)
  | _, _ => false

/-! ## Token Manager: JWT auth error retryability -/

/-- JavaScript truthiness of an optional string value: `undefined` and the
empty string are falsy, all other strings truthy. -/
def jsTruthyOptStr : Option String → Bool
  | none => false
  | some s => s != ""

/-- Substring occurrence on character lists, mirroring
`String.prototype.indexOf(pat) > -1`. -/
def listContainsSub (hay pat : List Char) : Bool :=
  match hay with
  | [] => pat.isEmpty
  | _ :: t => pat.isPrefixOf hay || listContainsSub t pat

/-- Substring occurrence on strings, mirroring `s.indexOf(pat) > -1`. -/
def strContainsSub (s pat : String) : Bool :=
  listContainsSub s.data pat.data

/-- The response attached to a JWT grant error, as read by the Token Manager:
the `date` response header, the `error_description` field of the JSON body,
and the `retry-after` response header (in seconds). -/
structure JwtErrResponse where
  dateHeader : Option String
  errorDescription : String
  retryAfter : Option Nat
  deriving DecidableEq, Repr

/-- A JWT grant error as inspected by `isJWTAuthErrorRetryable` and
`retryJWTGrant`: the `authExpired` marker set by the error builder, the
response status code (absent for transport errors, in which case the
JavaScript comparison `undefined >= 500` is false), and the response. -/
structure JwtErr where
  authExpired : Bool
  statusCode : Option Nat
  response : JwtErrResponse
  deriving DecidableEq, Repr

/-- Embedding of `isJWTAuthErrorRetryable` from the Token Manager source:
retryable when the error is an expired-auth error whose response carries a
truthy `date` header and whose `error_description` mentions `exp` or `jti`;
otherwise retryable exactly when the status code is 429 or at least 500. -/
def isJWTAuthErrorRetryable (err : JwtErr) : Bool :=
  if err.authExpired && jsTruthyOptStr err.response.dateHeader &&
      (strContainsSub err.response.errorDescription "exp" ||
        strContainsSub err.response.errorDescription "jti") then
    true
  else if err.statusCode == some 429 ||
      (match err.statusCode with
        | some s => 500 ≤ s
        | none => false) then
    true
  else
    false

/-! ## Request Executor: request objects, redaction and the buffered flow -/

/-- The redaction marker `REMOVED_HEADER_MESSAGE` from api-request.ts. -/
def REMOVED_HEADER_MESSAGE : String := "[REMOVED BY SDK]"

/-- The two sensitive headers of an outgoing request, as read by
`cleanSensitiveHeaders`: `Authorization` and the Box shared-link header
`BoxApi`. `none` models an absent header. -/
structure ReqHeaders where
  authorization : Option String
  boxApi : Option String
  deriving DecidableEq, Repr

/-- The outgoing request object (`this.request`); its `headers` property can
be absent, in which case `cleanSensitiveHeaders` does nothing. -/
structure RequestObj where
  headers : Option ReqHeaders
  deriving DecidableEq, Repr

/-- Embedding of `cleanSensitiveHeaders` from api-request.ts on the header
record: each of the two sensitive headers is overwritten with
`REMOVED_HEADER_MESSAGE` exactly when it is truthy. -/
def cleanSensitiveHeadersRec (h : ReqHeaders) : ReqHeaders :=
  { boxApi :=
      if jsTruthyOptStr h.boxApi then some REMOVED_HEADER_MESSAGE else h.boxApi,
    authorization :=
      if jsTruthyOptStr h.authorization then some REMOVED_HEADER_MESSAGE
      else h.authorization }

/-- Embedding of `cleanSensitiveHeaders` on the full request object,
including the `if (requestObj.headers)` guard. -/
def cleanSensitiveHeaders (requestObj : RequestObj) : RequestObj :=
  match requestObj.headers with
  | none => requestObj
  | some h => { headers := some (cleanSensitiveHeadersRec h) }

/-- The response information inspected by the executor and the retry loop:
the status code and the `retry-after` response header (seconds). -/
structure ResponseInfo where
  statusCode : Nat
  retryAfter : Option Nat := none
  deriving DecidableEq, Repr

/-- An `APIRequest~Error` object as built by `_handleResponse`: the attached
(request) headers snapshot, the attached response, the copied status code,
and the `maxRetriesExceeded` flag (initially undefined, modelled false). -/
structure ErrObj where
  requestHeaders : Option ReqHeaders := none
  response : Option ResponseInfo := none
  statusCode : Option Nat := none
  maxRetriesExceeded : Bool := false
  deriving DecidableEq, Repr

/-- A value surfaced on the event bus or to the callback: whether it is an
error, and the headers of the request object it references (none when the
surfaced value carries no request object, such as a bare transport error or
the fresh `Error` built by `createErrorForResponse`). -/
structure Emission where
  isError : Bool
  requestHeaders : Option ReqHeaders
  deriving DecidableEq, Repr

/-- Outcome of one buffered attempt as seen by `_handleResponse`: either the
transport layer failed (`err` non-null, response possibly still attached) or
a response was received. -/
inductive AttemptInput where
  | failed (response : Option ResponseInfo)
  | succeeded (response : ResponseInfo)
  deriving DecidableEq, Repr

/-- Where `_handleResponse` routes control after emitting: into `_retry`
with the classified error, straight to `_finish` with the error, or to
`_finish` with the successful response. -/
inductive BufferedStep where
  | retryWith (err : ErrObj)
  | finishErr (err : ErrObj)
  | finishOk (response : ResponseInfo)
  deriving DecidableEq, Repr

/-- Embedding of `APIRequest._handleResponse` (buffered mode): sensitive
headers are cleaned first; a successful transport outcome with a temporary
status is converted to an error; errors get the request and response
attached, are emitted on the event bus, and are routed to `_retry` exactly
when the request is retryable and not a JWT grant; successes are emitted and
finished. Returns the cleaned request, the event-bus emissions, and the
routing decision. -/
def handleResponse (req : RequestObj) (input : AttemptInput)
    (isRetryable isJWT : Bool) :
    RequestObj × List Emission × BufferedStep :=
  let req' := cleanSensitiveHeaders req
  match input with
  | .succeeded resp =>
    if isTemporaryError resp.statusCode then
      let err : ErrObj :=
        { requestHeaders := req'.headers, response := some resp,
          statusCode := some resp.statusCode }
      (req', [{ isError := true, requestHeaders := req'.headers }],
        if isRetryable && !isJWT then .retryWith err else .finishErr err)
    else
      (req', [{ isError := false, requestHeaders := req'.headers }],
        .finishOk resp)
  | .failed resp? =>
    let err : ErrObj :=
      { requestHeaders := req'.headers, response := resp?,
        statusCode := resp?.map ResponseInfo.statusCode }
    (req', [{ isError := true, requestHeaders := req'.headers }],
      if isRetryable && !isJWT then .retryWith err else .finishErr err)

/-! ## Request Executor: streaming mode -/

/-- The two stream events handled by the streaming branch of
`APIRequest.execute`. -/
inductive StreamEvent where
  | errorEvent
  | responseEvent (response : ResponseInfo)
  deriving DecidableEq, Repr

/-- Embedding of the streaming branch of `APIRequest.execute`: a stream
`error` is emitted as-is (a bare transport error, carrying no request
object); a stream `response` is converted by `createErrorForResponse` to a
fresh `Error` (again carrying no request object) when
`isClientErrorResponse` holds, and otherwise the raw response - which, per
the `APIRequest~ResponseObject` shape, references the outgoing request and
its headers - is emitted as a success. No header cleaning and no retry
occurs anywhere on this path. -/
def executeStreaming (req : RequestObj) (ev : StreamEvent) : List Emission :=
  match ev with
  | .errorEvent => [{ isError := true, requestHeaders := none }]
  | .responseEvent resp =>
    if isClientErrorResponse resp.statusCode then
      [{ isError := true, requestHeaders := none }]
    else
      [{ isError := false, requestHeaders := req.headers }]

/-! ## Request Executor: the retry loop (`APIRequest._retry`) -/

/-- The options object handed to a user-supplied retry strategy. -/
structure RetryOptions (ε : Type) where
  error : ε
  numRetryAttempts : Nat
  numMaxRetries : Nat
  retryIntervalMS : Nat
  totalElapsedTimeMS : Nat

/-- Result of a user-supplied retry strategy as discriminated by the source:
a number (the wait in milliseconds), an `Error` (replaces the current one),
or anything else. -/
inductive StrategyResult (ε : Type) where
  | timeoutMS (t : Nat)
  | errorResult (e : ε)
  | otherResult
  deriving DecidableEq, Repr

/-- The configuration fields read by `APIRequest._retry`. -/
structure RetryConfig where
  numMaxRetries : Nat
  retryIntervalMS : Nat
  retryStrategy : Option (RetryOptions ErrObj → StrategyResult ErrObj) := none

/-- Decision taken by one invocation of `_retry`: schedule a re-execution
after a delay (with the incremented retry count), or finish with an error. -/
inductive RetryDecision where
  | scheduleRetry (numRetries : Nat) (delayMS : Nat)
  | finishErr (err : ErrObj)
  deriving DecidableEq, Repr

/-- Embedding of `APIRequest._retry`. If retries remain the count is
incremented and the delay is chosen by, in priority order: the configured
retry strategy (a non-number result stops retrying, an `Error` result
replacing the surfaced error); the failed response's `retry-after` header,
in seconds, times 1000; or the external `getRetryTimeout` backoff (passed
here as the function `getRetryTimeout`, since the exponential-backoff module
is not part of these sources). Once `numRetries >= numMaxRetries` the error
is marked `maxRetriesExceeded` and finished. -/
def retryStep (config : RetryConfig) (getRetryTimeout : Nat → Nat → Nat)
    (numRetries : Nat) (err : ErrObj) (totalElapsedTimeMS : Nat) :
    RetryDecision :=
  if numRetries < config.numMaxRetries then
    match config.retryStrategy with
    | some strategy =>
      match strategy
          { error := err, numRetryAttempts := numRetries + 1,
            numMaxRetries := config.numMaxRetries,
            retryIntervalMS := config.retryIntervalMS,
            totalElapsedTimeMS := totalElapsedTimeMS } with
      | .timeoutMS t => .scheduleRetry (numRetries + 1) t
      | .errorResult e => .finishErr e
      | .otherResult => .finishErr err
    | none =>
      match err.response with
      | some resp =>
        match resp.retryAfter with
        | some seconds => .scheduleRetry (numRetries + 1) (seconds * 1000)
        | none =>
          .scheduleRetry (numRetries + 1)
            (getRetryTimeout (numRetries + 1) config.retryIntervalMS)
      | none =>
        .scheduleRetry (numRetries + 1)
          (getRetryTimeout (numRetries + 1) config.retryIntervalMS)
  else
    .finishErr { err with maxRetriesExceeded := true }

/-- The retry loop driven by `_handleResponse` and `_retry`: each element of
`failures` is the classified error (with its elapsed time) of the next
failed attempt. Returns the number of re-executions actually scheduled and,
when the loop ends by `_finish(err)`, the surfaced error. An empty remainder
means the next attempt succeeded and the loop ended successfully. -/
def runRetryLoop (config : RetryConfig) (getRetryTimeout : Nat → Nat → Nat) :
    List (ErrObj × Nat) → Nat → Nat → Nat × Option ErrObj
  | [], _, retriesDone => (retriesDone, none)
  | (err, elapsed) :: rest, numRetries, retriesDone =>
    match retryStep config getRetryTimeout numRetries err elapsed with
    | .scheduleRetry numRetries' _ =>
      runRetryLoop config getRetryTimeout rest numRetries' (retriesDone + 1)
    | .finishErr e => (retriesDone, some e)

/-! ## Token Manager: grant-response validation and parsing -/

/-- The fields of a token-endpoint JSON response body read by the Token
Manager. `expiresIn` is `some n` exactly when the wire field `expires_in` is
present as a number (the `typeof responseBody.expires_in !== 'number'` check
of the source). -/
structure TokenResponseBody where
  accessToken : Option String := none
  refreshToken : Option String := none
  expiresIn : Option Int := none
  error : Option String := none
  errorDescription : Option String := none
  deriving DecidableEq, Repr

/-- Embedding of `isValidCodeOrToken`: the value is a string (here: present)
and non-empty. -/
def isValidCodeOrToken : Option String → Bool
  | some s => s.length > 0
  | none => false

/-- Embedding of `isValidTokenResponse`: `access_token` must be a non-empty
string, `expires_in` must be a number, and for the `authorization_code` and
`refresh_token` grants `refresh_token` must also be a non-empty string. -/
def isValidTokenResponse (grantType : String) (responseBody : TokenResponseBody) :
    Bool :=
  if !isValidCodeOrToken responseBody.accessToken then
    false
  else if responseBody.expiresIn.isNone then
    false
  else if (grantType == "authorization_code" || grantType == "refresh_token") &&
      !isValidCodeOrToken responseBody.refreshToken then
    false
  else
    true

/-- A parsed TokenInfo as produced by `getTokensFromGrantResponse`. -/
structure TokenInfo where
  accessToken : Option String
  refreshToken : Option String
  accessTokenTTLMS : Int
  acquiredAtMS : Int
  deriving DecidableEq, Repr

/-- Embedding of `getTokensFromGrantResponse`: copies the tokens, converts
`expires_in` from seconds to milliseconds with `parseInt(..., 10) * 1000`,
and stamps `acquiredAtMS` with `Date.now()` read at parse time (passed here
as `now`). This function is only reached after `isValidTokenResponse`, so
`expiresIn` is a number on every call site; the `none` branch is arbitrary. -/
def getTokensFromGrantResponse (grantResponseBody : TokenResponseBody)
    (now : Int) : TokenInfo :=
  { accessToken := grantResponseBody.accessToken,
    refreshToken := grantResponseBody.refreshToken,
    accessTokenTTLMS :=
      (match grantResponseBody.expiresIn with
        | some n => n * 1000
        | none => 0),
    acquiredAtMS := now }

/-- The four ways the `getTokens` response handler can conclude. -/
inductive TokenResult where
  | authError
  | unexpectedResponse
  | malformedResponse
  | ok (info : TokenInfo)
  deriving DecidableEq, Repr

/-- Embedding of the response handler inside `TokenManager.getTokens` for a
response with a JSON object body: an `invalid_grant` error body becomes an
auth error; a non-200 status or a `Buffer` body becomes an unexpected
response; a body failing `isValidTokenResponse` becomes a malformed-response
error; otherwise the body is parsed by `getTokensFromGrantResponse` at the
current wall-clock time `now`. -/
def getTokensHandler (grantType : String) (statusCode : Nat)
    (bodyIsBuffer : Bool) (body : TokenResponseBody) (now : Int) :
    TokenResult :=
  if body.error == some "invalid_grant" then
    .authError
  else if statusCode != 200 || bodyIsBuffer then
    .unexpectedResponse
  else if !isValidTokenResponse grantType body then
    .malformedResponse
  else
    .ok (getTokensFromGrantResponse body now)

/-! ## Token Manager: the JWT retry delay (`retryJWTGrant`)

The JWT retry loop mirrors `APIRequest._retry` but computes its timeout in a
variable named `retryTimeoutinSeconds`: from the strategy result directly,
from the `retry-after` header verbatim (seconds, with no conversion), or as
`Math.ceil(getRetryTimeout(...) / 1000)`. It then computes the new JWT
expiry claim in seconds arithmetic from that variable, and finally passes
the same variable to bluebird's `Promise.delay`, whose argument is in
milliseconds. -/

/-- The configuration fields read by `TokenManager.retryJWTGrant`. -/
structure JwtRetryConfig where
  numMaxRetries : Nat
  retryIntervalMS : Nat
  retryStrategy : Option (RetryOptions JwtErr → StrategyResult JwtErr) := none
  expirationTime : Nat

/-- The `retryTimeoutinSeconds` value computed by `retryJWTGrant` when a
retry will happen (`numRetries < numMaxRetries` and the error is retryable
per `isJWTAuthErrorRetryable`), for the cases in which it is a number:
the strategy result, the `retry-after` header value used verbatim, or
`Math.ceil(getRetryTimeout(numRetries, retryIntervalMS) / 1000)`. `none`
when no retry is scheduled (budget exhausted, error not retryable, or a
non-numeric strategy result). -/
def retryJWTGrantTimeoutValue (config : JwtRetryConfig)
    (getRetryTimeout : Nat → Nat → Nat) (numRetries : Nat) (err : JwtErr)
    (totalElapsedTimeMS : Nat) : Option Nat :=
  if numRetries < config.numMaxRetries && isJWTAuthErrorRetryable err then
    match config.retryStrategy with
    | some strategy =>
      match strategy
          { error := err, numRetryAttempts := numRetries + 1,
            numMaxRetries := config.numMaxRetries,
            retryIntervalMS := config.retryIntervalMS,
            totalElapsedTimeMS := totalElapsedTimeMS } with
      | .timeoutMS t => some t
      | _ => none
    | none =>
      match err.response.retryAfter with
      | some seconds => some seconds
      | none =>
        some ((getRetryTimeout (numRetries + 1) config.retryIntervalMS + 999) /
          1000)
  else
    none

/-- The wall-clock wait, in milliseconds, that `retryJWTGrant` actually
performs before re-signing and retrying: the `retryTimeoutinSeconds` value
is passed unchanged to bluebird's `Promise.delay`, which interprets its
argument in milliseconds. -/
def retryJWTGrantDelayMS (config : JwtRetryConfig)
    (getRetryTimeout : Nat → Nat → Nat) (numRetries : Nat) (err : JwtErr)
    (totalElapsedTimeMS : Nat) : Option Nat :=
  retryJWTGrantTimeoutValue config getRetryTimeout numRetries err
    totalElapsedTimeMS

/-- The new `claims.exp` computed by `retryJWTGrant` before waiting: the
server-reported time (or local clock) plus the configured expiration window
plus `retryTimeoutinSeconds` - seconds arithmetic, anchored on the
assumption that the wait about to happen lasts `retryTimeoutinSeconds`
seconds. -/
def retryJWTGrantNewExp (config : JwtRetryConfig) (timeSeconds : Nat)
    (retryTimeoutinSeconds : Nat) : Nat :=
  timeSeconds + config.expirationTime + retryTimeoutinSeconds

/-! ## Config: defaults, freezing, and extend -/

/-- A JavaScript-ish configuration value. -/
inductive CVal where
  | vStr (s : String)
  | vNum (n : Int)
  | vBool (b : Bool)
  | vNull
  deriving DecidableEq, Repr

/-- A parameter object, as an association list; an earlier binding shadows a
later one (see `lookupParam`), so overriding merges prepend. -/
abbrev Params := List (String × CVal)

/-- Property lookup on a parameter object. -/
def lookupParam : Params → String → Option CVal
  | [], _ => none
  | (k, v) :: rest, key => if k = key then some v else lookupParam rest key

/-- Merge of parameter objects in the style of the `merge-options` library
as used by the Config constructor and `Config.extend`: properties of
`override` win over properties of `base`. With first-match lookup this is
list prepending. -/
def mergeParams (base override : Params) : Params :=
  override ++ base

/-- Property deletion (the `delete newParams.extend` statements). -/
def eraseParam (ps : Params) (key : String) : Params :=
  ps.filter (fun kv => kv.fst ≠ key)

/-- The top-level Config defaults object from the configuration source
(values irrelevant to the claims are representative). -/
def configDefaults : Params :=
  [("clientID", CVal.vNull), ("clientSecret", CVal.vNull),
   ("apiRootURL", CVal.vStr "https://api.box.com"),
   ("uploadAPIRootURL", CVal.vStr "https://upload.box.com/api"),
   ("authorizeRootURL", CVal.vStr "https://account.box.com/api"),
   ("apiVersion", CVal.vStr "2.0"),
   ("uploadRequestTimeoutMS", CVal.vNum 60000),
   ("retryIntervalMS", CVal.vNum 2000),
   ("numMaxRetries", CVal.vNum 5),
   ("retryStrategy", CVal.vNull),
   ("expiredBufferMS", CVal.vNum 180000),
   ("staleBufferMS", CVal.vNum 0),
   ("iterators", CVal.vBool false),
   ("analyticsClient", CVal.vNull)]

/-- A Config object: its `_params` property and whether
`deepFreezeWithRequest` has frozen it. -/
structure ConfigObj where
  configParams : Params
  frozen : Bool
  deriving DecidableEq, Repr

/-- Embedding of the Config constructor: `_params` is the defaults merged
with the given params, and the finished object is deep-frozen. -/
def mkConfig (params : Params) : ConfigObj :=
  { configParams := mergeParams configDefaults params, frozen := true }

/-- Property assignment on a Config object under non-strict JavaScript
semantics: writes to a frozen object are silently ignored. -/
def ConfigObj.setField (c : ConfigObj) (key : String) (v : CVal) : ConfigObj :=
  if c.frozen then c else { c with configParams := (key, v) :: c.configParams }

/-- Embedding of `Config.extend`: merge the current `_params` with the
overrides into a fresh object, delete the `extend` and `_params` keys from
it, and construct a new Config from the result. The receiver is not written
to anywhere. -/
def ConfigObj.extend (c : ConfigObj) (params : Params) : ConfigObj :=
  mkConfig
    (eraseParam (eraseParam (mergeParams c.configParams params) "extend")
      "_params")

/-! ## API Sessions: single-flight refresh

Only declaration files for the session classes are present among the
sources, so the refresh coordination is modelled from the spec. -/

/-- Modelled from the spec: the mutable state of a session with refresh
capability (PersistentSession, AppAuthSession, CCG session), whose
implementation files are absent from these sources - `_tokenInfo` is the
cached token, `_refreshPromise` the in-flight refresh marker; `grantCalls`
counts grant calls made to the token endpoint and `nextPromiseId` supplies
fresh promise identities. -/
structure SessionState where
  tokenInfo : Option Nat
  refreshPromiseId : Option Nat
  grantCalls : Nat
  nextPromiseId : Nat
  deriving DecidableEq, Repr

/-- Modelled from the spec: one `getAccessToken` caller reaching the
refresh decision while no valid token is cached. If a refresh is already in
flight the caller awaits that same promise; otherwise a grant call is
started, its promise recorded as in flight, and the caller awaits it. The
check and the flag-set happen in one event-loop step (no await between
them). Returns the new state and the promise the caller awaits. -/
def sessionAcquire (s : SessionState) : SessionState × Nat :=
  match s.refreshPromiseId with
  | some p => (s, p)
  | none =>
    ({ s with
        refreshPromiseId := some s.nextPromiseId,
        grantCalls := s.grantCalls + 1,
        nextPromiseId := s.nextPromiseId + 1 },
      s.nextPromiseId)

/-- Modelled from the spec: `n` concurrent `getAccessToken` callers
processed sequentially by the event loop, none of them seeing a valid
cached token. Returns the final state and the promises awaited, in caller
order. -/
def sessionAcquireMany : Nat → SessionState → SessionState × List Nat
  | 0, s => (s, [])
  | n + 1, s =>
    let (s', p) := sessionAcquire s
    let (s'', ps) := sessionAcquireMany n s'
    (s'', p :: ps)

/-- Modelled from the spec: completion of the in-flight refresh. On success
the fresh token is cached; in both cases the in-flight marker is cleared so
a later call can start a new refresh. -/
def sessionComplete (s : SessionState) (result : Option Nat) : SessionState :=
  { s with
    tokenInfo := match result with
      | some tok => some tok
      | none => s.tokenInfo,
    refreshPromiseId := none }

/-- The headers carried by the error (if any) that `_handleResponse` routes
onward: used to state that every error handed to `_retry` or `_finish`
references the cleaned request. -/
def stepRequestHeaders (step : BufferedStep) (h : Option ReqHeaders) : Prop :=
  match step with
  | .retryWith e => e.requestHeaders = h
  | .finishErr e => e.requestHeaders = h
  | .finishOk _ => True

end BoxSDK

namespace BoxSDK

/-! ## Theorems -/

/-- C1: for every buffered response, the Request Executor classifies it as a
temporary/retryable failure iff its status code is in 500..599 and not 507,
or is 408 or 429; a 507 response is never classified temporary and (absent a
transport error) is finished successfully without any retry. -/
theorem c1_temporary_error_classification :
    (∀ s : Nat, isTemporaryError s = true ↔
      ((500 ≤ s ∧ s ≤ 599 ∧ s ≠ 507) ∨ s = 408 ∨ s = 429))
    ∧ isTemporaryError 507 = false
    ∧ (∀ (req : RequestObj) (isRetryable isJWT : Bool) (resp : ResponseInfo),
        resp.statusCode = 507 →
        (handleResponse req (.succeeded resp) isRetryable isJWT).2.2 =
          BufferedStep.finishOk resp) := by
  refine ⟨?_, by decide, ?_⟩
  · intro s
    simp only [isTemporaryError, retryableStatusCodes, Bool.and_eq_true,
      bne_iff_ne, ne_eq, decide_eq_true_eq, Bool.or_eq_true, beq_iff_eq]
    split
    · simp_all
    · split <;> simp_all <;> omega
  · intro req isRetryable isJWT resp h
    simp only [handleResponse, h]
    norm_num [isTemporaryError, retryableStatusCodes]

/-- Witness for C1 at the concrete input of the claim: a 507 response with
no transport error is finished successfully, with no retry. -/
theorem c1_temporary_error_classification_witness :
    (handleResponse { headers := none }
        (AttemptInput.succeeded { statusCode := 507 }) true false).2.2 =
      BufferedStep.finishOk { statusCode := 507 } :=
  c1_temporary_error_classification.2.2 { headers := none } true false
    { statusCode := 507 } rfl

/-- C5: `isAccessTokenValid` returns true iff
`acquiredAtMS + accessTokenTTLMS - bufferMS > now`, an omitted buffer is
treated as 0, and the result is false whenever either timestamp field is
absent. -/
theorem c5_access_token_validity (tokenInfo : TokenInfoJS)
    (bufferMS : Option Int) (now : Int) :
    (isAccessTokenValid tokenInfo bufferMS now = true ↔
      ∃ acquiredAt ttl, tokenInfo.acquiredAtMS = some acquiredAt ∧
        tokenInfo.accessTokenTTLMS = some ttl ∧
        acquiredAt + ttl - bufferMS.getD 0 > now)
    ∧ isAccessTokenValid tokenInfo none now =
        isAccessTokenValid tokenInfo (some 0) now
    ∧ ((tokenInfo.acquiredAtMS = none ∨ tokenInfo.accessTokenTTLMS = none) →
        isAccessTokenValid tokenInfo bufferMS now = false) := by
  obtain ⟨acq, ttl⟩ := tokenInfo
  refine ⟨?_, ?_, ?_⟩
  · cases acq <;> cases ttl <;> simp [isAccessTokenValid]
  · cases acq <;> cases ttl <;> simp [isAccessTokenValid]
  · rintro (h | h) <;> simp_all <;> cases acq <;> cases ttl <;>
      simp_all [isAccessTokenValid]

/-- Witness for C5: the token of the spec scenario (acquired at T with TTL
3600000 ms) is valid 1000 ms later with no buffer, and a token missing its
TTL field is invalid. -/
theorem c5_access_token_validity_witness :
    (isAccessTokenValid
        { acquiredAtMS := some 1700000000000,
          accessTokenTTLMS := some 3600000 } none 1700000001000 = true)
    ∧ isAccessTokenValid
        { acquiredAtMS := some 1700000000000, accessTokenTTLMS := none }
        none 1700000001000 = false := by
  constructor
  · exact (c5_access_token_validity
      { acquiredAtMS := some 1700000000000, accessTokenTTLMS := some 3600000 }
      none 1700000001000).1.mpr
      ⟨1700000000000, 3600000, rfl, rfl, by norm_num⟩
  · exact (c5_access_token_validity
      { acquiredAtMS := some 1700000000000, accessTokenTTLMS := none }
      none 1700000001000).2.2 (Or.inr rfl)

/-- Normal form of `isJWTAuthErrorRetryable`: the nested if-chain equals the
disjunction of its two conditions. -/
theorem isJWTAuthErrorRetryable_eq_or (err : JwtErr) :
    isJWTAuthErrorRetryable err =
      (err.authExpired && jsTruthyOptStr err.response.dateHeader &&
          (strContainsSub err.response.errorDescription "exp" ||
            strContainsSub err.response.errorDescription "jti") ||
        (err.statusCode == some 429 ||
          (match err.statusCode with
            | some s => decide (500 ≤ s)
            | none => false))) := by
  unfold isJWTAuthErrorRetryable
  split
  · next h => simp [h]
  · next h =>
    split
    · next h2 => simp [h2]
    · next h2 =>
      simp only [Bool.not_eq_true] at h h2
      simp [h, h2]

/-- C6: a JWT-grant error is classified retryable iff it is an auth-expired
error whose response carries a (truthy) `date` header and whose error
description mentions an expiry (`exp`) or JWT-ID (`jti`) problem, or its
status code is 429 or at least 500. -/
theorem c6_jwt_retryable_classification (err : JwtErr) :
    isJWTAuthErrorRetryable err = true ↔
      ((err.authExpired = true ∧
          jsTruthyOptStr err.response.dateHeader = true ∧
          (strContainsSub err.response.errorDescription "exp" = true ∨
            strContainsSub err.response.errorDescription "jti" = true))
        ∨ err.statusCode = some 429
        ∨ ∃ s, err.statusCode = some s ∧ 500 ≤ s) := by
  obtain ⟨ae, sc, resp⟩ := err
  rw [isJWTAuthErrorRetryable_eq_or]
  rcases sc with _ | s
  · simp only [Bool.or_eq_true, Bool.and_eq_true, beq_iff_eq,
      reduceCtorEq, false_or, or_false]
    simp
    tauto
  · simp only [Bool.or_eq_true, Bool.and_eq_true, beq_iff_eq,
      Option.some.injEq, decide_eq_true_eq]
    simp
    tauto

/-- Inversion for `retryStep`: a re-execution is scheduled only while
`numRetries < numMaxRetries`, and the count is incremented by exactly one. -/
theorem retryStep_scheduleRetry_inv (config : RetryConfig)
    (getRetryTimeout : Nat → Nat → Nat) (numRetries : Nat) (err : ErrObj)
    (elapsed : Nat) (numRetries' delayMS : Nat)
    (h : retryStep config getRetryTimeout numRetries err elapsed =
      RetryDecision.scheduleRetry numRetries' delayMS) :
    numRetries < config.numMaxRetries ∧ numRetries' = numRetries + 1 := by
  unfold retryStep at h
  split at h
  · next hlt =>
    refine ⟨hlt, ?_⟩
    split at h
    · split at h <;> simp_all
    · split at h
      · split at h <;> simp_all
      · simp_all
  · simp_all

/-- The number of re-executions scheduled by the retry loop never exceeds
the remaining budget. -/
theorem runRetryLoop_retries_le (config : RetryConfig)
    (getRetryTimeout : Nat → Nat → Nat) (failures : List (ErrObj × Nat)) :
    ∀ numRetries retriesDone,
      numRetries ≤ config.numMaxRetries →
      (runRetryLoop config getRetryTimeout failures numRetries retriesDone).1 ≤
        retriesDone + (config.numMaxRetries - numRetries) := by
  induction failures with
  | nil => intro numRetries retriesDone _; simp [runRetryLoop]
  | cons head rest ih =>
    intro numRetries retriesDone hle
    obtain ⟨err, elapsed⟩ := head
    simp only [runRetryLoop]
    cases hstep : retryStep config getRetryTimeout numRetries err elapsed with
    | scheduleRetry numRetries' delayMS =>
      obtain ⟨hlt, hinc⟩ := retryStep_scheduleRetry_inv config getRetryTimeout
        numRetries err elapsed numRetries' delayMS hstep
      subst hinc
      have := ih (numRetries + 1) (retriesDone + 1) hlt
      dsimp only
      omega
    | finishErr e =>
      dsimp only
      omega

/-- C3: the Request Executor performs at most `numMaxRetries` retries per
logical request; once `numRetries >= numMaxRetries` the current error is
marked `maxRetriesExceeded` and surfaced; with `numMaxRetries = 0` no retry
ever occurs and the first classified error is surfaced immediately with
`maxRetriesExceeded = true`. -/
theorem c3_retry_budget (config : RetryConfig)
    (getRetryTimeout : Nat → Nat → Nat) :
    (∀ failures : List (ErrObj × Nat),
      (runRetryLoop config getRetryTimeout failures 0 0).1 ≤
        config.numMaxRetries)
    ∧ (∀ (numRetries : Nat) (err : ErrObj) (elapsed : Nat),
        config.numMaxRetries ≤ numRetries →
        retryStep config getRetryTimeout numRetries err elapsed =
          RetryDecision.finishErr { err with maxRetriesExceeded := true })
    ∧ (config.numMaxRetries = 0 →
        ∀ (err : ErrObj) (elapsed : Nat) (rest : List (ErrObj × Nat)),
          runRetryLoop config getRetryTimeout ((err, elapsed) :: rest) 0 0 =
            (0, some { err with maxRetriesExceeded := true })) := by
  refine ⟨?_, ?_, ?_⟩
  · intro failures
    have := runRetryLoop_retries_le config getRetryTimeout failures 0 0
      (Nat.zero_le _)
    omega
  · intro numRetries err elapsed hge
    unfold retryStep
    rw [if_neg (by omega)]
  · intro hzero err elapsed rest
    simp only [runRetryLoop]
    rw [show retryStep config getRetryTimeout 0 err elapsed =
      RetryDecision.finishErr { err with maxRetriesExceeded := true } from
      by unfold retryStep; rw [if_neg (by omega)]]

/-- Witness for C3: with `numMaxRetries = 0` the classified error is
surfaced immediately, marked `maxRetriesExceeded`, and zero retries run. -/
theorem c3_retry_budget_witness :
    runRetryLoop { numMaxRetries := 0, retryIntervalMS := 2000 }
        (fun _ _ => 0) [({ statusCode := some 502 }, 0)] 0 0 =
      (0, some { statusCode := some 502, maxRetriesExceeded := true }) :=
  (c3_retry_budget { numMaxRetries := 0, retryIntervalMS := 2000 }
    (fun _ _ => 0)).2.2 rfl { statusCode := some 502 } 0 []

/-- C2 evaluation at the failing input: with no retry strategy and a failed
attempt carrying `retry-after: 5`, the Request Executor schedules the retry
after 5 * 1000 = 5000 milliseconds, but the Token Manager's JWT retry loop
hands the bare seconds value 5 to bluebird `Promise.delay`, i.e. waits
5 milliseconds - even though its own new JWT expiry claim is computed as if
the wait lasted 5 seconds (server time 1000 + 30 s window + 5 s = 1035). -/
theorem c2_retry_after_delay_divergence :
    retryStep { numMaxRetries := 5, retryIntervalMS := 2000 } (fun _ _ => 0) 0
        { response := some { statusCode := 429, retryAfter := some 5 },
          statusCode := some 429 } 0 =
      RetryDecision.scheduleRetry 1 5000
    ∧ retryJWTGrantDelayMS
        { numMaxRetries := 5, retryIntervalMS := 2000, expirationTime := 30 }
        (fun _ _ => 0) 0
        { authExpired := false, statusCode := some 429,
          response := { dateHeader := none, errorDescription := "",
                        retryAfter := some 5 } } 0 = some 5
    ∧ retryJWTGrantNewExp
        { numMaxRetries := 5, retryIntervalMS := 2000, expirationTime := 30 }
        1000 5 = 1035 := by
  exact ⟨rfl, rfl, rfl⟩

/-- `isValidCodeOrToken` holds exactly of present, non-empty strings. -/
theorem isValidCodeOrToken_iff (v : Option String) :
    isValidCodeOrToken v = true ↔ ∃ s, v = some s ∧ s ≠ "" := by
  cases v with
  | none => simp [isValidCodeOrToken]
  | some s =>
    simp only [isValidCodeOrToken, Option.some.injEq, decide_eq_true_eq]
    constructor
    · intro h
      refine ⟨s, rfl, fun he => ?_⟩
      subst he
      simp at h
    · rintro ⟨t, ht, hne⟩
      subst ht
      obtain ⟨data⟩ := s
      cases data with
      | nil => exact absurd rfl hne
      | cons c cs => simp [String.length]

/-- Normal form of `isValidTokenResponse`: the if-chain as one Boolean
conjunction. -/
theorem isValidTokenResponse_eq (grantType : String)
    (b : TokenResponseBody) :
    isValidTokenResponse grantType b =
      (isValidCodeOrToken b.accessToken && !b.expiresIn.isNone &&
        (!(grantType == "authorization_code" ||
            grantType == "refresh_token") ||
          isValidCodeOrToken b.refreshToken)) := by
  unfold isValidTokenResponse
  cases h1 : isValidCodeOrToken b.accessToken <;>
    cases h2 : b.expiresIn.isNone <;>
      cases h3 : (grantType == "authorization_code" ||
          grantType == "refresh_token") <;>
        cases h4 : isValidCodeOrToken b.refreshToken <;>
          simp [h1, h2, h3, h4]

/-- Counterexample to C4 as stated: for a client-credentials grant, an HTTP
200 JSON body that does contain every field the claim lists as required for
that grant type (`access_token`, and no `refresh_token` requirement) but
lacks a numeric `expires_in` is rejected as a malformed token response, not
parsed into a TokenInfo. -/
theorem c4_missing_expires_in_counterexample :
    getTokensHandler "client_credentials" 200 false
      { accessToken := some "ats_abc" } 1700000000000 =
      TokenResult.malformedResponse := by
  rfl

/-- C4 (amended): for an HTTP 200, non-binary, non-`invalid_grant` token
response, the body is accepted iff it has a non-empty `access_token`, a
numeric `expires_in`, and - for the authorization-code and refresh-token
grants - a non-empty `refresh_token`; an accepted body parses into a
TokenInfo copying the tokens, with `accessTokenTTLMS = expires_in * 1000`
and `acquiredAtMS` the wall clock read at parse time; a rejected body
yields a malformed-token-response error and no TokenInfo. -/
theorem c4_get_tokens_parsing (grantType : String) (body : TokenResponseBody)
    (now : Int) (hng : body.error ≠ some "invalid_grant") :
    (isValidTokenResponse grantType body = true ↔
      ((∃ s, body.accessToken = some s ∧ s ≠ "") ∧
        (∃ n, body.expiresIn = some n) ∧
        ((grantType = "authorization_code" ∨ grantType = "refresh_token") →
          ∃ s, body.refreshToken = some s ∧ s ≠ "")))
    ∧ (∀ n : Int, body.expiresIn = some n →
        isValidTokenResponse grantType body = true →
        getTokensHandler grantType 200 false body now =
          TokenResult.ok
            { accessToken := body.accessToken,
              refreshToken := body.refreshToken,
              accessTokenTTLMS := n * 1000, acquiredAtMS := now })
    ∧ (isValidTokenResponse grantType body = false →
        getTokensHandler grantType 200 false body now =
          TokenResult.malformedResponse) := by
  have hbe : (body.error == some "invalid_grant") = false :=
    beq_eq_false_iff_ne.mpr hng
  refine ⟨?_, ?_, ?_⟩
  · rw [isValidTokenResponse_eq]
    cases hei : body.expiresIn with
    | none =>
      simp [isValidCodeOrToken_iff]
    | some n =>
      simp only [Bool.and_eq_true, Bool.or_eq_true, Bool.not_eq_true,
        isValidCodeOrToken_iff, beq_iff_eq, Option.isNone_some,
        Bool.not_false, Bool.true_eq_false, false_or, Bool.false_eq_true,
        or_false]
      constructor
      · rintro ⟨⟨hacc, -⟩, hor⟩
        refine ⟨hacc, ⟨n, rfl⟩, fun hg => ?_⟩
        rcases hor with hor | hor
        · rcases hg with hg | hg <;> simp_all
        · exact hor
      · rintro ⟨hacc, -, href⟩
        refine ⟨⟨hacc, trivial⟩, ?_⟩
        by_cases hg : grantType = "authorization_code" ∨
            grantType = "refresh_token"
        · exact Or.inr (href hg)
        · push_neg at hg
          left
          simp [hg.1, hg.2]
  · intro n hn hvalid
    simp [getTokensHandler, hbe, hvalid, getTokensFromGrantResponse, hn]
  · intro hinvalid
    simp [getTokensHandler, hbe, hinvalid]

/-- Witness for C4 at the spec scenario: the refresh-token grant response
with `access_token: a1`, `refresh_token: r1`, `expires_in: 3600` parsed at
time T yields exactly the TokenInfo of the scenario. -/
theorem c4_get_tokens_parsing_witness :
    getTokensHandler "refresh_token" 200 false
        { accessToken := some "a1", refreshToken := some "r1",
          expiresIn := some 3600 } 1700000000000 =
      TokenResult.ok
        { accessToken := some "a1", refreshToken := some "r1",
          accessTokenTTLMS := 3600000, acquiredAtMS := 1700000000000 } :=
  (c4_get_tokens_parsing "refresh_token"
      { accessToken := some "a1", refreshToken := some "r1",
        expiresIn := some 3600 } 1700000000000 (by simp)).2.1
    3600 rfl (by rfl)

/-- While a refresh is in flight, further `getAccessToken` callers change no
state and all receive the in-flight promise. -/
theorem sessionAcquireMany_inflight (n : Nat) (s : SessionState) (p : Nat)
    (h : s.refreshPromiseId = some p) :
    sessionAcquireMany n s = (s, List.replicate n p) := by
  induction n with
  | zero => simp [sessionAcquireMany]
  | succ m ih =>
    simp only [sessionAcquireMany, sessionAcquire, h, ih]
    simp [List.replicate]

/-- C7: concurrent `getAccessToken` callers arriving while no valid token is
cached and no refresh is in flight cause exactly one grant call; every
caller awaits the same promise (hence receives the same resulting token,
which a successful completion caches); and completion - success or failure -
clears the in-flight marker. -/
theorem c7_single_flight_refresh (s0 : SessionState) (n : Nat)
    (hidle : s0.refreshPromiseId = none) (hn : 1 ≤ n) :
    (sessionAcquireMany n s0).1.grantCalls = s0.grantCalls + 1
    ∧ (sessionAcquireMany n s0).2.length = n
    ∧ (∀ p ∈ (sessionAcquireMany n s0).2, p = s0.nextPromiseId)
    ∧ (∀ result,
        (sessionComplete (sessionAcquireMany n s0).1
          result).refreshPromiseId = none)
    ∧ (∀ tok,
        (sessionComplete (sessionAcquireMany n s0).1
          (some tok)).tokenInfo = some tok) := by
  obtain ⟨m, rfl⟩ : ∃ m, n = m + 1 := ⟨n - 1, by omega⟩
  have hmany : sessionAcquireMany (m + 1) s0 =
      ({ s0 with
          refreshPromiseId := some s0.nextPromiseId,
          grantCalls := s0.grantCalls + 1,
          nextPromiseId := s0.nextPromiseId + 1 },
        s0.nextPromiseId :: List.replicate m s0.nextPromiseId) := by
    simp only [sessionAcquireMany, sessionAcquire, hidle]
    rw [sessionAcquireMany_inflight m _ s0.nextPromiseId rfl]
  rw [hmany]
  refine ⟨rfl, by simp, ?_, fun _ => rfl, fun _ => rfl⟩
  intro p hp
  rcases List.mem_cons.mp hp with rfl | hp
  · rfl
  · exact List.eq_of_mem_replicate hp

/-- Witness for C7: three concurrent callers on an idle, token-less session
make one grant call, all await promise 0, and completion clears the
marker and caches the token. -/
theorem c7_single_flight_refresh_witness :
    (sessionAcquireMany 3
        { tokenInfo := none, refreshPromiseId := none, grantCalls := 0,
          nextPromiseId := 0 }).1.grantCalls = 0 + 1
    ∧ (sessionAcquireMany 3
        { tokenInfo := none, refreshPromiseId := none, grantCalls := 0,
          nextPromiseId := 0 }).2.length = 3
    ∧ (∀ p ∈ (sessionAcquireMany 3
        { tokenInfo := none, refreshPromiseId := none, grantCalls := 0,
          nextPromiseId := 0 }).2, p = 0)
    ∧ (∀ result,
        (sessionComplete (sessionAcquireMany 3
          { tokenInfo := none, refreshPromiseId := none, grantCalls := 0,
            nextPromiseId := 0 }).1 result).refreshPromiseId = none)
    ∧ (∀ tok,
        (sessionComplete (sessionAcquireMany 3
          { tokenInfo := none, refreshPromiseId := none, grantCalls := 0,
            nextPromiseId := 0 }).1 (some tok)).tokenInfo = some tok) :=
  c7_single_flight_refresh
    { tokenInfo := none, refreshPromiseId := none, grantCalls := 0,
      nextPromiseId := 0 } 3 rfl (by decide)

/-- Property lookup distributes over appended parameter objects, preferring
the left-hand (overriding) part. -/
theorem lookupParam_append (a b : Params) (k : String) :
    lookupParam (a ++ b) k =
      match lookupParam a k with
      | some v => some v
      | none => lookupParam b k := by
  induction a with
  | nil => simp [lookupParam]
  | cons kv rest ih =>
    obtain ⟨k1, v1⟩ := kv
    by_cases h : k1 = k
    · simp [lookupParam, h]
    · simp [lookupParam, h, ih]

/-- Deleting an absent property is the identity. -/
theorem eraseParam_of_lookup_none (ps : Params) (k : String)
    (h : lookupParam ps k = none) : eraseParam ps k = ps := by
  induction ps with
  | nil => rfl
  | cons kv rest ih =>
    obtain ⟨k1, v1⟩ := kv
    simp only [lookupParam] at h
    by_cases hk : k1 = k
    · rw [if_pos hk] at h
      cases h
    · rw [if_neg hk] at h
      have hrest := ih h
      unfold eraseParam at hrest ⊢
      rw [List.filter_cons, hrest]
      simp [hk]

/-- C8: a constructed Config is frozen, so any later property write is a
no-op (never mutated after construction); and `extend` builds a new, again
frozen Config whose parameters are exactly the merge of the receiver's
parameters with the overrides - the receiver itself is only read. The
hypotheses mirror the constructor's assertion that user params may not
carry the reserved `extend` and `_params` keys. -/
theorem c8_config_frozen_and_extend (q p : Params) (k : String) (v : CVal)
    (key : String)
    (hq1 : lookupParam q "extend" = none)
    (hq2 : lookupParam q "_params" = none)
    (hp1 : lookupParam p "extend" = none)
    (hp2 : lookupParam p "_params" = none) :
    (mkConfig q).setField k v = mkConfig q
    ∧ ((mkConfig q).extend p).frozen = true
    ∧ lookupParam ((mkConfig q).extend p).configParams key =
        lookupParam (mergeParams (mkConfig q).configParams p) key := by
  have hd1 : lookupParam configDefaults "extend" = none := by rfl
  have hd2 : lookupParam configDefaults "_params" = none := by rfl
  refine ⟨by simp [ConfigObj.setField, mkConfig], rfl, ?_⟩
  have hAex : lookupParam (p ++ (q ++ configDefaults)) "extend" = none := by
    simp [lookupParam_append, hp1, hq1, hd1]
  have hApa : lookupParam (p ++ (q ++ configDefaults)) "_params" = none := by
    simp [lookupParam_append, hp2, hq2, hd2]
  have herase :
      eraseParam (eraseParam (p ++ (q ++ configDefaults)) "extend")
        "_params" = p ++ (q ++ configDefaults) := by
    rw [eraseParam_of_lookup_none _ _ hAex,
      eraseParam_of_lookup_none _ _ hApa]
  simp only [ConfigObj.extend, mkConfig, mergeParams]
  rw [herase, lookupParam_append]
  cases hk : lookupParam (p ++ (q ++ configDefaults)) key with
  | some v2 => rfl
  | none =>
    rw [lookupParam_append] at hk
    cases hkp : lookupParam p key with
    | some v2 => rw [hkp] at hk; cases hk
    | none =>
      rw [hkp] at hk
      dsimp only at hk
      rw [lookupParam_append] at hk
      cases hkq : lookupParam q key with
      | some v2 => rw [hkq] at hk; cases hk
      | none =>
        rw [hkq] at hk
        dsimp only at hk
        exact hk

/-- Witness for C8: extending a concrete Config with an override produces
the overridden value without touching the original, and a write to the
frozen original is ignored. -/
theorem c8_config_frozen_and_extend_witness :
    (mkConfig [("clientID", CVal.vStr "id")]).setField "numMaxRetries"
        (CVal.vNum 99) = mkConfig [("clientID", CVal.vStr "id")]
    ∧ ((mkConfig [("clientID", CVal.vStr "id")]).extend
        [("numMaxRetries", CVal.vNum 0)]).frozen = true
    ∧ lookupParam ((mkConfig [("clientID", CVal.vStr "id")]).extend
          [("numMaxRetries", CVal.vNum 0)]).configParams "numMaxRetries" =
        lookupParam
          (mergeParams (mkConfig [("clientID", CVal.vStr "id")]).configParams
            [("numMaxRetries", CVal.vNum 0)]) "numMaxRetries" :=
  c8_config_frozen_and_extend [("clientID", CVal.vStr "id")]
    [("numMaxRetries", CVal.vNum 0)] "numMaxRetries" (CVal.vNum 99)
    "numMaxRetries" rfl rfl rfl rfl

/-- Counterexample to C9 as stated: in streaming mode a non-client-error
response is emitted on the event bus carrying the outgoing request with its
original `Authorization` and shared-link headers - `cleanSensitiveHeaders`
is never invoked on the streaming path, so nothing is overwritten with the
redaction marker. -/
theorem c9_streaming_unredacted_counterexample :
    executeStreaming
        { headers := some
            { authorization := some "Bearer abc123",
              boxApi := some "shared_link_credential" } }
        (StreamEvent.responseEvent { statusCode := 200 }) =
      [{ isError := false,
         requestHeaders := some
           { authorization := some "Bearer abc123",
             boxApi := some "shared_link_credential" } }]
    ∧ "Bearer abc123" ≠ REMOVED_HEADER_MESSAGE := by
  exact ⟨rfl, by decide⟩

/-- C9 (amended): in buffered (callback) mode, `_handleResponse` cleans the
sensitive headers before anything is surfaced: every event-bus emission and
every error routed onward references the cleaned request, and cleaning
overwrites any present, non-empty `Authorization` or `BoxApi` header with
the redaction marker. (Streaming mode performs no such redaction; see the
counterexample.) -/
theorem c9_buffered_redaction (req : RequestObj) (input : AttemptInput)
    (isRetryable isJWT : Bool) :
    ((handleResponse req input isRetryable isJWT).1 =
        cleanSensitiveHeaders req)
    ∧ (∀ e ∈ (handleResponse req input isRetryable isJWT).2.1,
        e.requestHeaders = (cleanSensitiveHeaders req).headers)
    ∧ stepRequestHeaders (handleResponse req input isRetryable isJWT).2.2
        (cleanSensitiveHeaders req).headers
    ∧ (∀ h s, req.headers = some h → h.authorization = some s → s ≠ "" →
        ∃ h2, (cleanSensitiveHeaders req).headers = some h2 ∧
          h2.authorization = some REMOVED_HEADER_MESSAGE)
    ∧ (∀ h s, req.headers = some h → h.boxApi = some s → s ≠ "" →
        ∃ h2, (cleanSensitiveHeaders req).headers = some h2 ∧
          h2.boxApi = some REMOVED_HEADER_MESSAGE) := by
  refine ⟨?_, ?_, ?_, ?_, ?_⟩
  · cases input with
    | succeeded resp =>
      simp only [handleResponse]
      split <;> rfl
    | failed resp? => rfl
  · cases input with
    | succeeded resp =>
      simp only [handleResponse]
      split <;> simp
    | failed resp? => simp [handleResponse]
  · cases input with
    | succeeded resp =>
      simp only [handleResponse]
      split
      · split <;> simp [stepRequestHeaders]
      · simp [stepRequestHeaders]
    | failed resp? =>
      simp only [handleResponse]
      split <;> simp [stepRequestHeaders]
  · intro h s hh ha hs
    refine ⟨cleanSensitiveHeadersRec h, by simp [cleanSensitiveHeaders, hh], ?_⟩
    simp [cleanSensitiveHeadersRec, jsTruthyOptStr, ha, hs]
  · intro h s hh ha hs
    refine ⟨cleanSensitiveHeadersRec h, by simp [cleanSensitiveHeaders, hh], ?_⟩
    simp [cleanSensitiveHeadersRec, jsTruthyOptStr, ha, hs]

/-- Witness for C9 (amended): cleaning a concrete request with a non-empty
`Authorization` header yields the redaction marker. -/
theorem c9_buffered_redaction_witness :
    ∃ h2,
      (cleanSensitiveHeaders
          { headers := some
              { authorization := some "Bearer abc123",
                boxApi := none } }).headers = some h2 ∧
        h2.authorization = some REMOVED_HEADER_MESSAGE :=
  (c9_buffered_redaction
      { headers := some
          { authorization := some "Bearer abc123", boxApi := none } }
      (AttemptInput.succeeded { statusCode := 502 }) true
      false).2.2.2.1
    { authorization := some "Bearer abc123", boxApi := none }
    "Bearer abc123" rfl rfl (by decide)

/-- C10: in streaming mode only statuses in 400..499 are converted to
errors before emission; every other status - server errors 500..599 and 507
included - is emitted as a successful `response` event carrying the raw
response, with no error raised (and the streaming path contains no retry
logic at all). -/
theorem c10_streaming_classification (req : RequestObj)
    (resp : ResponseInfo) :
    (executeStreaming req (StreamEvent.responseEvent resp) =
        [{ isError := true, requestHeaders := none }] ↔
      400 ≤ resp.statusCode ∧ resp.statusCode < 500)
    ∧ (¬(400 ≤ resp.statusCode ∧ resp.statusCode < 500) →
        executeStreaming req (StreamEvent.responseEvent resp) =
          [{ isError := false, requestHeaders := req.headers }])
    ∧ (500 ≤ resp.statusCode →
        executeStreaming req (StreamEvent.responseEvent resp) =
          [{ isError := false, requestHeaders := req.headers }]) := by
  by_cases hc : 400 ≤ resp.statusCode ∧ resp.statusCode < 500
  · have hb : isClientErrorResponse resp.statusCode = true := by
      simp [isClientErrorResponse, hc.1, hc.2]
    refine ⟨?_, fun hn => absurd hc hn, fun h5 => absurd hc (by omega)⟩
    simp [executeStreaming, hb, hc]
  · have hb : isClientErrorResponse resp.statusCode = false := by
      simp only [isClientErrorResponse, Bool.and_eq_false_iff]
      rcases Decidable.not_and_iff_or_not.mp hc with h | h
      · exact Or.inl (by simpa using h)
      · exact Or.inr (by simpa using h)
    refine ⟨?_, fun _ => by simp [executeStreaming, hb],
      fun _ => by simp [executeStreaming, hb]⟩
    simp [executeStreaming, hb, hc]

/-- Witness for C10: a streaming 507 response is emitted as a successful
`response` event, not converted to an error. -/
theorem c10_streaming_classification_witness :
    executeStreaming { headers := none }
        (StreamEvent.responseEvent { statusCode := 507 }) =
      [{ isError := false, requestHeaders := none }] :=
  (c10_streaming_classification { headers := none }
    { statusCode := 507 }).2.2 (by decide)

end BoxSDK
